import Mathlib

/-!
Shallow embedding of src/app.py (temperature-dashboard statistics core).

Conventions of the embedding:
* a pandas dataframe column is a Lean list (row order = list order);
* float arithmetic is modelled exactly over the rationals, and a standard
  deviation (a float square root in the code) over the reals via Real.sqrt;
* a NaN entry of a column is modelled as none of an Option type, matching
  pandas skip/NaN semantics: a comparison against NaN yields False;
* the asynchronous HTTP fetch is modelled by its response-parsing logic:
  fetch_temperature receives the decoded JSON body, and an unguarded
  dictionary access that would raise KeyError is an Except.error carrying
  the missing key.
-/

set_option maxHeartbeats 1000000

/-- One row of the uploaded historical dataset (columns of the CSV that
analyze_city reads: city, timestamp, temperature, season). -/
structure Reading where
  city : String
  timestamp : Int
  temperature : ℚ
  season : String
deriving DecidableEq, Inhabited

/-- Mean of a list of rationals: sum divided by length (pandas mean). -/
def listMean (l : List ℚ) : ℚ := l.sum / (l.length : ℚ)

/-- Sample variance with Bessel correction (ddof = 1), the square of the
standard deviation pandas std computes: sum of squared deviations from the
mean, divided by (length - 1). Only used under a length guard. -/
def sampleVar (l : List ℚ) : ℚ :=
  (l.map (fun x => (x - listMean l) ^ 2)).sum / ((l.length : ℚ) - 1)

/-- Sample variance as an optional value: pandas std is NaN (none) when
fewer than 2 observations are available. -/
def sampleVarOpt (l : List ℚ) : Option ℚ :=
  if 2 ≤ l.length then some (sampleVar l) else none

/-- Trailing window of pandas rolling(window=30) at position i: the
elements at positions max(0, i-29) .. i, written with truncated
subtraction (i + 1 - 30 = max 0 (i - 29) on Nat). -/
def window (ts : List ℚ) (i : ℕ) : List ℚ := (ts.take (i + 1)).drop (i + 1 - 30)

/-- The temperature column of a dataset. -/
def temps (df : List Reading) : List ℚ := df.map (fun r => r.temperature)

/-- Line 39 of app.py: the rolling_mean column,
rolling(window=30, min_periods=1).mean(); with min_periods=1 every
position i < length has a value (the window at i is nonempty). -/
def rollingMeanCol (df : List Reading) : List ℚ :=
  (List.range df.length).map (fun i => listMean (window (temps df) i))

/-- First non-NaN value of a column suffix (helper for backward fill). -/
def nextSome {α : Type} : List (Option α) → Option α
  | [] => none
  | some v :: _ => some v
  | none :: xs => nextSome xs

/-- pandas bfill(): every NaN entry is replaced by the next non-NaN entry
below it (trailing NaNs stay NaN). -/
def bfill {α : Type} : List (Option α) → List (Option α)
  | [] => []
  | x :: xs => nextSome (x :: xs) :: bfill xs

/-- Line 40 of app.py before the backward fill: the column
rolling(window=30, min_periods=2).std(); the std at position i is the
square root of the sample variance of the trailing window, NaN (none)
while the window has fewer than 2 observations. -/
noncomputable def rollingStdRaw (df : List Reading) : List (Option ℝ) :=
  (List.range df.length).map (fun i =>
    (sampleVarOpt (window (temps df) i)).map (fun v => Real.sqrt (v : ℝ)))

/-- Line 40 of app.py: the rolling_std column,
rolling(window=30, min_periods=2).std().bfill(). -/
noncomputable def rollingStdCol (df : List Reading) : List (Option ℝ) :=
  bfill (rollingStdRaw df)

/-- A row of city_data after lines 39-40 of app.py: the input columns plus
the two rolling columns. -/
structure RollRow where
  city : String
  timestamp : Int
  temperature : ℚ
  season : String
  rolling_mean : ℚ
  rolling_std : Option ℝ

/-- The dataframe after lines 39-40 of app.py: each input row extended
with the rolling columns at its position. -/
noncomputable def rollFrame (df : List Reading) : List RollRow :=
  (List.range df.length).map (fun i =>
    ⟨(df.getD i default).city, (df.getD i default).timestamp,
     (df.getD i default).temperature, (df.getD i default).season,
     (rollingMeanCol df).getD i 0, (rollingStdCol df).getD i none⟩)

/-- The temperatures of the rows of the frame carrying a given season
(the group that groupby("season") forms at line 41 of app.py). -/
def seasonTempsR (pre : List RollRow) (s : String) : List ℚ :=
  (pre.filter (fun p => p.season = s)).map (fun p => p.temperature)

/-- The temperatures of the input rows carrying a given season, across
the entire input series. -/
def seasonTempsD (df : List Reading) (s : String) : List ℚ :=
  (df.filter (fun r => r.season = s)).map (fun r => r.temperature)

/-- A row of city_data after the merge at line 43 of app.py: the rolling
columns plus the per-season scalars seasonal_mean and seasonal_std. -/
structure SeasonRow where
  city : String
  timestamp : Int
  temperature : ℚ
  season : String
  rolling_mean : ℚ
  rolling_std : Option ℝ
  seasonal_mean : ℚ
  seasonal_std : Option ℝ

/-- Lines 41-43 of app.py: groupby("season").agg(mean, std) merged back
onto the frame with merge(on="season") (default how="inner", sort=False).
The right frame has exactly one row per season occurring in the frame, so
this many-to-one inner join drops no left row, and per the pandas merge
contract (preserve the order of the left keys; row-for-row for
non-unique keys as of pandas 2.2) the output keeps the left frame's row
order: each row is annotated with the mean and the sample standard
deviation of its season's temperatures over the whole series. -/
noncomputable def mergeSeasonal (pre : List RollRow) : List SeasonRow :=
  pre.map (fun p =>
    ⟨p.city, p.timestamp, p.temperature, p.season, p.rolling_mean, p.rolling_std,
     listMean (seasonTempsR pre p.season),
     (sampleVarOpt (seasonTempsR pre p.season)).map (fun v => Real.sqrt (v : ℝ))⟩)

/-- The comparison np.abs(t - m) > 2 * s of lines 44-45 of app.py, where
s may be NaN (none): a comparison against NaN is False. -/
def anomalyProp (t m : ℚ) (s : Option ℝ) : Prop :=
  match s with
  | none => False
  | some sv => |(t : ℝ) - (m : ℝ)| > 2 * sv

/-- A row of the Analyzed series returned by analyze_city: all columns of
the merged frame plus the two boolean anomaly flags. -/
structure AnalyzedRow where
  city : String
  timestamp : Int
  temperature : ℚ
  season : String
  rolling_mean : ℚ
  rolling_std : Option ℝ
  seasonal_mean : ℚ
  seasonal_std : Option ℝ
  rolling_anomaly : Prop
  seasonal_anomaly : Prop

/-- Lines 38-46 of app.py: analyze_city. Rolling columns (lines 39-40),
seasonal statistics merged per season (lines 41-43), then the two anomaly
flags (lines 44-45), each computed row-wise on the merged frame with the
fixed threshold 2. -/
noncomputable def analyze_city (df : List Reading) : List AnalyzedRow :=
  (mergeSeasonal (rollFrame df)).map (fun m =>
    ⟨m.city, m.timestamp, m.temperature, m.season, m.rolling_mean, m.rolling_std,
     m.seasonal_mean, m.seasonal_std,
     anomalyProp m.temperature m.rolling_mean m.rolling_std,
     anomalyProp m.temperature m.seasonal_mean m.seasonal_std⟩)

/-- The input columns of an analyzed row (the correspondence between an
output row and the input row it was derived from). -/
def baseOf (r : AnalyzedRow) : Reading := ⟨r.city, r.timestamp, r.temperature, r.season⟩

/-- Lines 11-20 of app.py: get_current_season, as a function of the month
component that datetime.now().month produces. -/
def get_current_season (month : ℕ) : String :=
  if month = 12 ∨ month = 1 ∨ month = 2 then "winter"
  else if month = 3 ∨ month = 4 ∨ month = 5 then "spring"
  else if month = 6 ∨ month = 7 ∨ month = 8 then "summer"
  else "autumn"

/-- A JSON value, as far as the weather-API response body needs: numbers,
strings, and objects (dictionaries). -/
inductive Json where
  | num : ℚ → Json
  | str : String → Json
  | obj : List (String × Json) → Json

/-- Key lookup in a JSON object field list. -/
def lookupKey : List (String × Json) → String → Option Json
  | [], _ => none
  | (k, v) :: rest, key => if k = key then some v else lookupKey rest key

/-- Python dictionary access d[key] as an optional value: some on a
present key of an object, none otherwise. -/
def Json.getKey? : Json → String → Option Json
  | Json.obj fields, key => lookupKey fields key
  | _, _ => none

/-- Lines 23-30 of app.py: fetch_temperature, modelled on the decoded
JSON body of the HTTP response. If "main" is present and has "temp", the
code returns (city, temp, coord.lat, coord.lon) where the coord accesses
are unguarded: a missing key raises KeyError, modelled as Except.error
naming the missing key. Otherwise it returns (city, None, None, None).
The API key only parameterizes the request URL, not the parsing. -/
def fetch_temperature (city owm_api_key : String) (data : Json) :
    Except String (String × Option Json × Option Json × Option Json) :=
  match data.getKey? "main" with
  | some m =>
    match m.getKey? "temp" with
    | some t =>
      match data.getKey? "coord" with
      | none => Except.error "coord"
      | some c =>
        match c.getKey? "lat" with
        | none => Except.error "lat"
        | some la =>
          match c.getKey? "lon" with
          | none => Except.error "lon"
          | some lo => Except.ok (city, some t, some la, some lo)
    | none => Except.ok (city, none, none, none)
  | none => Except.ok (city, none, none, none)

/-- A one-row input series used as a concrete instance. -/
def exSingle : List Reading := [⟨"c", 0, 5, "w"⟩]

/-- The single analyzed row that analyze_city produces on exSingle. -/
def exRowSingle : AnalyzedRow :=
  ⟨"c", 0, 5, "w", listMean [5], none, listMean [5], none, False, False⟩

/-- A two-row input series in one season, used as a concrete instance. -/
def exPair : List Reading := [⟨"c", 0, 1, "w"⟩, ⟨"c", 1, 3, "w"⟩]

/-- A response body carrying main.temp and both coordinates. -/
def exampleJsonFull : Json :=
  Json.obj [("main", Json.obj [("temp", Json.num 21.5)]),
            ("coord", Json.obj [("lat", Json.num 10), ("lon", Json.num 20)])]

/-- A response body lacking the main field. -/
def exampleJsonNoMain : Json :=
  Json.obj [("coord", Json.obj [("lat", Json.num 10), ("lon", Json.num 20)])]

/-- A response body carrying main.temp but no coord field. -/
def exampleJsonNoCoord : Json :=
  Json.obj [("main", Json.obj [("temp", Json.num 21.5)])]

/-- A response body carrying main.temp and a coord object without lat. -/
def exampleJsonNoLat : Json :=
  Json.obj [("main", Json.obj [("temp", Json.num 21.5)]),
            ("coord", Json.obj [("lon", Json.num 20)])]

/-- Indexing a column built by mapping a function over List.range. -/
theorem getD_map_range {α : Type} (f : ℕ → α) (n i : ℕ) (h : i < n) (d : α) :
    ((List.range n).map f).getD i d = f i := by
  rw [List.getD_eq_getElem?_getD, List.getElem?_eq_getElem (by simpa using h)]
  simp

/-- Indexing below the length turns getD into getElem. -/
theorem getD_eq_getElem_of_lt {α : Type} (l : List α) (d : α) (i : ℕ) (h : i < l.length) :
    l.getD i d = l[i] := by
  rw [List.getD_eq_getElem?_getD, List.getElem?_eq_getElem h]
  rfl

/-- Entry i of a backward-filled column is the first non-NaN entry of the
original column at a position at or after i. -/
theorem bfill_getD {α : Type} (l : List (Option α)) (i : ℕ) :
    (bfill l).getD i none = nextSome (l.drop i) := by
  induction l generalizing i with
  | nil => simp [bfill, nextSome]
  | cons x xs ih =>
    cases i with
    | zero => simp [bfill]
    | succ n => simpa [bfill] using ih n

/-- Length of the trailing window at a position inside the series. -/
theorem window_length (ts : List ℚ) (i : ℕ) (h : i < ts.length) :
    (window ts i).length = min (i + 1) 30 := by
  simp only [window, List.length_drop, List.length_take]
  omega

/-- C6: analyze_city is deterministic and idempotent at the interface: it
is embedded as a pure function of the input series, so two calls on the
same fresh input series yield identical Analyzed-series output. -/
theorem analyze_city_idempotent (df : List Reading) : analyze_city df = analyze_city df := rfl

/-- C7: for every city and API key, fetch_temperature on a JSON body with
main.temp and coord returns the temperature and both coordinates; on a
body lacking the main field it returns the all-None triple. -/
theorem fetch_temperature_parses_json (city owm_api_key : String) :
    fetch_temperature city owm_api_key exampleJsonFull =
      Except.ok (city, some (Json.num 21.5), some (Json.num 10), some (Json.num 20)) ∧
    fetch_temperature city owm_api_key exampleJsonNoMain =
      Except.ok (city, none, none, none) :=
  ⟨rfl, rfl⟩

/-- C10: presence of main.temp does not guarantee a result: on a body with
main.temp but no coord field the unguarded access data.coord raises
(Except.error), and likewise for a coord object lacking lat. -/
theorem fetch_temperature_missing_coord_error (city owm_api_key : String) :
    fetch_temperature city owm_api_key exampleJsonNoCoord = Except.error "coord" ∧
    fetch_temperature city owm_api_key exampleJsonNoLat = Except.error "lat" :=
  ⟨rfl, rfl⟩

/-- C8: get_current_season is a pure, total, error-free function of the
month, mapping 12, 1, 2 to winter, 3, 4, 5 to spring, 6, 7, 8 to summer,
and 9, 10, 11 to autumn. -/
theorem season_month_mapping (m : ℕ) :
    ((m = 12 ∨ m = 1 ∨ m = 2) → get_current_season m = "winter") ∧
    ((m = 3 ∨ m = 4 ∨ m = 5) → get_current_season m = "spring") ∧
    ((m = 6 ∨ m = 7 ∨ m = 8) → get_current_season m = "summer") ∧
    ((m = 9 ∨ m = 10 ∨ m = 11) → get_current_season m = "autumn") := by
  refine ⟨?_, ?_, ?_, ?_⟩ <;> rintro (rfl | rfl | rfl) <;> rfl

/-- Witness for C8 at the four sample months of the spec. -/
theorem season_month_mapping_witness :
    get_current_season 1 = "winter" ∧ get_current_season 4 = "spring" ∧
    get_current_season 7 = "summer" ∧ get_current_season 10 = "autumn" :=
  ⟨(season_month_mapping 1).1 (Or.inr (Or.inl rfl)),
   (season_month_mapping 4).2.1 (Or.inr (Or.inl rfl)),
   (season_month_mapping 7).2.2.1 (Or.inr (Or.inl rfl)),
   (season_month_mapping 10).2.2.2 (Or.inr (Or.inl rfl))⟩

/-- C1: for a series of length at least 2 and every position i, the
rolling_mean column computed by analyze_city (line 39, indexed in input
order) at position i is the arithmetic mean of the temperatures at
positions max(0, i-29) .. i; on Nat, i - 29 is exactly max(0, i-29). -/
theorem rolling_mean_window_spec (df : List Reading) (hn : 2 ≤ df.length)
    (i : ℕ) (hi : i < df.length) :
    (rollingMeanCol df).getD i 0 =
      listMean (((temps df).drop (i - 29)).take (i + 1 - (i - 29))) := by
  rw [rollingMeanCol, getD_map_range _ _ _ hi]
  have h2 : i + 1 - 30 = i - 29 := by omega
  have h1 : i + 1 - (i + 1 - 30) = i + 1 - (i - 29) := by omega
  rw [window, List.drop_take, h1, h2]

/-- Witness for C1 on a concrete two-reading series at position 1. -/
theorem rolling_mean_window_spec_witness :
    2 ≤ exPair.length ∧
    (rollingMeanCol exPair).getD 1 0 =
      listMean (((temps exPair).drop (1 - 29)).take (1 + 1 - (1 - 29))) :=
  ⟨by decide, rolling_mean_window_spec exPair (by decide) 1 (by decide)⟩

/-- C2: for a series of length at least 2, the rolling_std column equals
the Bessel-corrected sample standard deviation of the trailing 30-wide
window wherever that window holds at least 2 observations; the position-0
entry is NaN before the backward fill and afterwards holds the first
subsequently computed value (the one at position 1); no entry of the
back-filled column is undefined. -/
theorem rolling_std_window_spec (df : List Reading) (hn : 2 ≤ df.length)
    (i : ℕ) (hi : i < df.length) :
    (2 ≤ (window (temps df) i).length →
      (rollingStdCol df).getD i none =
        some (Real.sqrt (sampleVar (window (temps df) i)))) ∧
    (rollingStdRaw df).getD 0 none = none ∧
    (rollingStdCol df).getD 0 none =
      some (Real.sqrt (sampleVar (window (temps df) 1))) ∧
    ((rollingStdCol df).getD i none).isSome = true := by
  have hts : (temps df).length = df.length := by simp [temps]
  have hlen_raw : (rollingStdRaw df).length = df.length := by simp [rollingStdRaw]
  have hraw : ∀ j, j < df.length → (rollingStdRaw df).getD j none =
      (sampleVarOpt (window (temps df) j)).map (fun v => Real.sqrt (v : ℝ)) := by
    intro j hj
    rw [rollingStdRaw, getD_map_range _ _ _ hj]
  have hwin : ∀ j, j < df.length → (window (temps df) j).length = min (j + 1) 30 := by
    intro j hj
    exact window_length _ _ (by rw [hts]; exact hj)
  have hpart1 : 2 ≤ (window (temps df) i).length →
      (rollingStdCol df).getD i none =
        some (Real.sqrt (sampleVar (window (temps df) i))) := by
    intro hw2
    have hx : (rollingStdRaw df).getD i none =
        some (Real.sqrt (sampleVar (window (temps df) i))) := by
      rw [hraw i hi, sampleVarOpt, if_pos hw2]
      rfl
    have hlt : i < (rollingStdRaw df).length := by rw [hlen_raw]; exact hi
    show (bfill (rollingStdRaw df)).getD i none = _
    rw [bfill_getD, List.drop_eq_getElem_cons hlt,
      ← getD_eq_getElem_of_lt _ none _ hlt, hx]
    rfl
  have hraw0 : (rollingStdRaw df).getD 0 none = none := by
    have h0 : 0 < df.length := by omega
    have hw0 : ¬ (2 ≤ (window (temps df) 0).length) := by
      rw [hwin 0 h0]
      omega
    rw [hraw 0 h0, sampleVarOpt, if_neg hw0]
    rfl
  have hx1 : (rollingStdRaw df).getD 1 none =
      some (Real.sqrt (sampleVar (window (temps df) 1))) := by
    have h1 : 1 < df.length := by omega
    rw [hraw 1 h1, sampleVarOpt, if_pos (by rw [hwin 1 h1]; omega)]
    rfl
  have hcol0 : (rollingStdCol df).getD 0 none =
      some (Real.sqrt (sampleVar (window (temps df) 1))) := by
    have h0lt : 0 < (rollingStdRaw df).length := by rw [hlen_raw]; omega
    have h1lt : 1 < (rollingStdRaw df).length := by rw [hlen_raw]; omega
    have hsplit : rollingStdRaw df = none :: (rollingStdRaw df).drop 1 := by
      have h01 := List.drop_eq_getElem_cons (l := rollingStdRaw df) (n := 0) h0lt
      rw [List.drop_zero] at h01
      have hg : (rollingStdRaw df)[0] = none := by
        rw [← getD_eq_getElem_of_lt _ none 0 h0lt]
        exact hraw0
      rw [hg] at h01
      exact h01
    show (bfill (rollingStdRaw df)).getD 0 none = _
    rw [bfill_getD, List.drop_zero]
    conv_lhs => rw [hsplit]
    have hg1 : (rollingStdRaw df)[1] = some (Real.sqrt (sampleVar (window (temps df) 1))) := by
      rw [← getD_eq_getElem_of_lt _ none 1 h1lt]
      exact hx1
    simp only [nextSome]
    rw [List.drop_eq_getElem_cons h1lt, hg1]
    rfl
  refine ⟨hpart1, hraw0, hcol0, ?_⟩
  rcases Nat.eq_zero_or_pos i with h0 | h1
  · subst h0
    rw [hcol0]
    rfl
  · rw [hpart1 (by rw [hwin i hi]; omega)]
    rfl

/-- Witness for C2 on a concrete two-reading series at position 1, with
every hypothesis discharged. -/
theorem rolling_std_window_spec_witness :
    (rollingStdCol exPair).getD 1 none =
      some (Real.sqrt (sampleVar (window (temps exPair) 1))) ∧
    (rollingStdRaw exPair).getD 0 none = none ∧
    (rollingStdCol exPair).getD 0 none =
      some (Real.sqrt (sampleVar (window (temps exPair) 1))) ∧
    ((rollingStdCol exPair).getD 1 none).isSome = true := by
  have h := rolling_std_window_spec exPair (by decide) 1 (by decide)
  exact ⟨h.1 (by decide), h.2.1, h.2.2.1, h.2.2.2⟩

/-- The (season, temperature) pairs of the frame after the rolling
columns are those of the input series, in order. -/
theorem rollFrame_map_proj (df : List Reading) :
    (rollFrame df).map (fun p => (p.season, p.temperature)) =
      df.map (fun r => (r.season, r.temperature)) := by
  apply List.ext_getElem
  · simp [rollFrame]
  · intro i h1 h2
    have hi : i < df.length := by simpa [rollFrame] using h1
    simp [rollFrame, List.getElem?_eq_getElem hi]

/-- Projecting the frame after the rolling columns back to the input
columns recovers the input series, row for row and in order. -/
theorem rollFrame_map_base_row (df : List Reading) :
    (rollFrame df).map (fun p => Reading.mk p.city p.timestamp p.temperature p.season) = df := by
  apply List.ext_getElem
  · simp [rollFrame]
  · intro i h1 h2
    have hi : i < df.length := by simpa [rollFrame] using h1
    simp [rollFrame, List.getElem?_eq_getElem hi]

/-- Two lists with equal (key, value) projections have, for every key,
equal value lists of the rows filtered on that key. -/
theorem filter_map_of_pair_eq {α β γ : Type} (k1 : α → String) (v1 : α → γ)
    (k2 : β → String) (v2 : β → γ) :
    ∀ (l1 : List α) (l2 : List β),
      l1.map (fun x => (k1 x, v1 x)) = l2.map (fun y => (k2 y, v2 y)) →
      ∀ s, (l1.filter (fun x => k1 x = s)).map v1 = (l2.filter (fun y => k2 y = s)).map v2 := by
  intro l1
  induction l1 with
  | nil =>
    intro l2 h s
    cases l2 with
    | nil => rfl
    | cons b t2 => simp at h
  | cons a t1 ih =>
    intro l2 h s
    cases l2 with
    | nil => simp at h
    | cons b t2 =>
      simp only [List.map_cons, List.cons.injEq, Prod.mk.injEq] at h
      obtain ⟨⟨hk, hv⟩, ht⟩ := h
      simp only [List.filter_cons, hk, hv]
      by_cases hs : k2 b = s
      · simp [hs, hv, ih t2 ht s]
      · simp [hs, ih t2 ht s]

/-- The per-season temperature groups formed on the frame after the
rolling columns agree with the per-season groups of the input series. -/
theorem seasonTempsR_rollFrame (df : List Reading) (s : String) :
    seasonTempsR (rollFrame df) s = seasonTempsD df s := by
  have h := filter_map_of_pair_eq (fun p => p.season) (fun p => p.temperature)
    (fun r => r.season) (fun r => r.temperature) (rollFrame df) df (rollFrame_map_proj df) s
  simpa [seasonTempsR, seasonTempsD] using h

/-- C5: the rows of the Analyzed series appear in the same order as the
corresponding rows of the input series: projecting every output row of
analyze_city back to its input columns recovers the input series itself,
row for row. The many-to-one inner merge of line 43 drops no row (the
right frame covers every season of the left frame) and keeps the left
frame's row order. -/
theorem merge_preserves_row_order (df : List Reading) :
    (analyze_city df).map baseOf = df := by
  unfold analyze_city mergeSeasonal
  rw [List.map_map, List.map_map]
  exact rollFrame_map_base_row df

/-- analyze_city on a one-row series: one output row, rolling_std stays
NaN even after the backward fill (there is no later defined value), the
seasonal std of the single-row season group is NaN as well, and both
anomaly flags are the NaN comparison, i.e. False. -/
theorem analyze_city_singleton (r : Reading) :
    analyze_city [r] =
      [⟨r.city, r.timestamp, r.temperature, r.season, listMean [r.temperature], none,
        listMean [r.temperature], none, False, False⟩] := by
  simp [analyze_city, mergeSeasonal, rollFrame, seasonTempsR, rollingMeanCol,
    rollingStdRaw, rollingStdCol, bfill, nextSome, sampleVarOpt, window, temps, anomalyProp,
    List.range_succ, List.range_zero, List.filter_cons]

/-- C9: on a series of length exactly 1, rolling_std stays undefined even
after the backward fill (there is no subsequently computed value to fill
from), and the comparison against the undefined value leaves
rolling_anomaly false: a singleton series is never flagged by the rolling
check. -/
theorem singleton_series_rolling (r : Reading) :
    (analyze_city [r]).map (fun x => (x.rolling_std, x.rolling_anomaly)) = [(none, False)] := by
  rw [analyze_city_singleton]
  rfl

/-- C3: every output row of analyze_city carries as seasonal_mean and
seasonal_std the mean and the sample standard deviation of the
temperatures of its season taken across the entire input series, so all
rows sharing a season have identical seasonal statistics. -/
theorem seasonal_stats_whole_series (df : List Reading) (r : AnalyzedRow)
    (hr : r ∈ analyze_city df) :
    r.seasonal_mean = listMean (seasonTempsD df r.season) ∧
    r.seasonal_std = (sampleVarOpt (seasonTempsD df r.season)).map (fun v => Real.sqrt (v : ℝ)) ∧
    ∀ r2 ∈ analyze_city df, r2.season = r.season →
      r2.seasonal_mean = r.seasonal_mean ∧ r2.seasonal_std = r.seasonal_std := by
  have key : ∀ x ∈ analyze_city df,
      x.seasonal_mean = listMean (seasonTempsD df x.season) ∧
      x.seasonal_std = (sampleVarOpt (seasonTempsD df x.season)).map (fun v => Real.sqrt (v : ℝ)) := by
    intro x hx
    unfold analyze_city at hx
    obtain ⟨m, hm, rfl⟩ := List.mem_map.mp hx
    unfold mergeSeasonal at hm
    obtain ⟨p, hp, rfl⟩ := List.mem_map.mp hm
    dsimp only
    rw [seasonTempsR_rollFrame df p.season]
    exact ⟨rfl, rfl⟩
  obtain ⟨h1, h2⟩ := key r hr
  refine ⟨h1, h2, ?_⟩
  intro r2 h2m hseason
  obtain ⟨g1, g2⟩ := key r2 h2m
  constructor
  · rw [g1, hseason, h1]
  · rw [g2, hseason, h2]

/-- The one-row example series has its analyzed row in the output. -/
theorem exRowSingle_mem : exRowSingle ∈ analyze_city exSingle := by
  have h := analyze_city_singleton ⟨"c", 0, 5, "w"⟩
  rw [show exSingle = [(⟨"c", 0, 5, "w"⟩ : Reading)] from rfl, h]
  exact List.mem_singleton.mpr rfl

/-- Witness for C3 on the one-row example series. -/
theorem seasonal_stats_whole_series_witness :
    exRowSingle ∈ analyze_city exSingle ∧
    exRowSingle.seasonal_mean = listMean (seasonTempsD exSingle exRowSingle.season) ∧
    exRowSingle.seasonal_std =
      (sampleVarOpt (seasonTempsD exSingle exRowSingle.season)).map (fun v => Real.sqrt (v : ℝ)) :=
  ⟨exRowSingle_mem,
   (seasonal_stats_whole_series exSingle exRowSingle exRowSingle_mem).1,
   (seasonal_stats_whole_series exSingle exRowSingle exRowSingle_mem).2.1⟩

/-- C4: on every output row of analyze_city, rolling_anomaly holds iff
the absolute deviation of the temperature from the rolling mean exceeds
2 rolling standard deviations (with a defined, non-NaN deviation), and
likewise for seasonal_anomaly; threshold 2 and window 30 are fixed in the
definitions. -/
theorem anomaly_flags_iff (df : List Reading) (r : AnalyzedRow) (hr : r ∈ analyze_city df) :
    (r.rolling_anomaly ↔ ∃ s, r.rolling_std = some s ∧
        |(r.temperature : ℝ) - (r.rolling_mean : ℝ)| > 2 * s) ∧
    (r.seasonal_anomaly ↔ ∃ s, r.seasonal_std = some s ∧
        |(r.temperature : ℝ) - (r.seasonal_mean : ℝ)| > 2 * s) := by
  unfold analyze_city at hr
  obtain ⟨m, hm, rfl⟩ := List.mem_map.mp hr
  constructor
  · dsimp only
    cases h : m.rolling_std with
    | none => simp [anomalyProp, h]
    | some sv => simp [anomalyProp, h]
  · dsimp only
    cases h : m.seasonal_std with
    | none => simp [anomalyProp, h]
    | some sv => simp [anomalyProp, h]

/-- Witness for C4 on the one-row example series: the rolling std there
is undefined, so the iff forces the flag to be false. -/
theorem anomaly_flags_iff_witness :
    exRowSingle ∈ analyze_city exSingle ∧ ¬ exRowSingle.rolling_anomaly := by
  refine ⟨exRowSingle_mem, ?_⟩
  intro ha
  obtain ⟨s, hs, _⟩ := ((anomaly_flags_iff exSingle exRowSingle exRowSingle_mem).1).mp ha
  exact Option.noConfusion hs
